import Mathlib

/-!
Verification of the velocity-suite extraction & grounding pipeline.

Shallow embedding of `src/velocity-agent/agent/models.py`,
`src/velocity-agent/agent/grounding.py` and
`src/velocity-agent/agent/scraper.py` into Lean 4.

Modelling conventions:
* Python `float` values (prices, sentiment scores) are modelled as exact
  rationals `ℚ`; every arithmetic operation the code performs on them
  (`+`, `-`, `/`, comparisons) is exact at the inputs of interest.
* Python `dict` items are modelled as a structure of `Option` fields;
  `none` models an absent key (`'k' in item` is `.isSome`).
* The HTTP backend and the rendered browser page are external
  collaborators; they are modelled as oracle functions.
* String operations are modelled on the underlying character lists
  (Python indexes strings by code point).
-/

/-- Python `p in s` (substring containment) on strings. -/
def pyContains (p s : String) : Bool :=
  (List.range (s.data.length + 1)).any (fun i => p.data.isPrefixOf (s.data.drop i))

/-- Python `s.lower()` (ASCII case folding suffices for the fixed lexicons). -/
def pyLower (s : String) : String :=
  ⟨s.data.map Char.toLower⟩

/-- Python `s.strip()`: remove leading and trailing whitespace. -/
def pyStrip (s : String) : String :=
  ⟨((s.data.dropWhile Char.isWhitespace).reverse.dropWhile Char.isWhitespace).reverse⟩

/-- Python `s[:n]`: first `n` code points of `s`. -/
def pyTake (s : String) (n : Nat) : String :=
  ⟨s.data.take n⟩

/-- Python `s.startswith(p)`. -/
def pyStartsWith (s p : String) : Bool :=
  p.data.isPrefixOf s.data

/-! ## URL validation (pydantic `HttpUrl`)

Modelled from the spec: the pydantic library (not under `src/`) validates
`HttpUrl` fields; per the spec a valid value is "a non-empty, syntactically
valid absolute URL" — here: an `http://` or `https://` scheme followed by a
non-empty host. -/

/-- The characters after the `http(s)://` scheme, or `none` when the string
has no such scheme. -/
def schemeRest (cs : List Char) : Option (List Char) :=
  if "http://".data.isPrefixOf cs then some (cs.drop 7)
  else if "https://".data.isPrefixOf cs then some (cs.drop 8)
  else none

/-- The host component: everything up to the first `/`, `?` or `#`. -/
def urlHost (cs : List Char) : List Char :=
  cs.takeWhile (fun c => !(c == '/' || c == '?' || c == '#'))

/-- Modelled from the spec: pydantic `HttpUrl` syntactic validity — an
absolute `http(s)` URL with a non-empty host. -/
def isValidHttpUrl (s : String) : Bool :=
  match schemeRest s.data with
  | some rest => !(urlHost rest).isEmpty
  | none => false

/-! ## Verified record models (`agent/models.py`) -/

/-- Model of `VerifiedPrice` (models.py lines 5-30). -/
structure VerifiedPrice where
  product_id : Int
  price : ℚ
  currency : String
  source_url : String
deriving DecidableEq, Repr

/-- Model of `VerifiedSentiment` (models.py lines 33-60). -/
structure VerifiedSentiment where
  product_id : Int
  sentiment_score : ℚ
  sentiment_text : Option String
  raw_reviews : Option (List String)
  source_url : String
deriving DecidableEq, Repr

/-- Construction of a `VerifiedPrice`: pydantic evaluates `Field(..., gt=0)`
on `price` and coerces/validates `source_url` as `HttpUrl` (required field:
a missing value — `none` — fails). Returns `none` when validation raises. -/
def mkVerifiedPrice (product_id : Int) (price : ℚ) (currency : String)
    (source_url : Option String) : Option VerifiedPrice :=
  match source_url with
  | none => none
  | some u =>
    if 0 < price ∧ isValidHttpUrl u = true then
      some ⟨product_id, price, currency, u⟩
    else none

/-- Construction of a `VerifiedSentiment`: pydantic evaluates
`Field(..., ge=-1.0, le=1.0)` on `sentiment_score` and validates
`source_url` as a required `HttpUrl`. Returns `none` when validation
raises. -/
def mkVerifiedSentiment (product_id : Int) (sentiment_score : ℚ)
    (sentiment_text : Option String) (raw_reviews : Option (List String))
    (source_url : Option String) : Option VerifiedSentiment :=
  match source_url with
  | none => none
  | some u =>
    if -1 ≤ sentiment_score ∧ sentiment_score ≤ 1 ∧ isValidHttpUrl u = true then
      some ⟨product_id, sentiment_score, sentiment_text, raw_reviews, u⟩
    else none

/-! ## Grounding validator (`agent/grounding.py`) -/

/-- A scraped item: the Python dict flowing into
`GroundingValidator.process_scraped_data`. `none` models an absent key. -/
structure RawItem where
  name : Option String
  category : Option String
  competitor : Option String
  price : Option ℚ
  currency : Option String
  source_url : Option String
  sentiment_score : Option ℚ
  sentiment_text : Option String
  sentiment_source_url : Option String
  raw_reviews : Option (List String)
  insight : Option String
deriving DecidableEq, Repr

/-- The Node.js backend collaborator, as the wire contract used by
`grounding.py`: `createProduct` models `_create_product` (a `201` response
yields the new id, anything else — or a transport error — yields `none`);
`savePrice` / `saveSentiment` model `_save_price` / `_save_sentiment`
(`true` iff the response status is `201`). -/
structure Backend where
  createProduct : RawItem → Option Int
  savePrice : Int → VerifiedPrice → Bool
  saveSentiment : VerifiedSentiment → Bool

/-- The `results` accumulator of `process_scraped_data`. -/
structure GroundingResult where
  products_created : Nat
  prices_added : Nat
  sentiments_added : Nat
  errors : List String
deriving DecidableEq, Repr

def GroundingResult.empty : GroundingResult := ⟨0, 0, 0, []⟩

/-- Sequential composition of two accumulator deltas: counters add,
error lists concatenate in order. -/
def GroundingResult.merge (a b : GroundingResult) : GroundingResult :=
  ⟨a.products_created + b.products_created,
   a.prices_added + b.prices_added,
   a.sentiments_added + b.sentiments_added,
   a.errors ++ b.errors⟩

/-- The message of grounding.py line 61 (`item.get('name')` prints `None`
when the key is absent). -/
def productFailMsg (item : RawItem) : String :=
  "Failed to create product: " ++ item.name.getD "None"

/-- The message of grounding.py line 85; the pydantic exception text
(`str(e)`) is abstracted to a fixed suffix. -/
def priceFailMsg : String := "Price validation failed: validation error"

/-- The message of grounding.py line 108; the pydantic exception text is
abstracted to a fixed suffix. -/
def sentimentFailMsg : String := "Sentiment validation failed: validation error"

/-- The `VerifiedSentiment` constructor call at grounding.py lines 92-97:
`product_id`, the item's `sentiment_score`, `item.get('sentiment_text', '')`,
and `source_url=item['sentiment_source_url']`; `raw_reviews` is not passed,
so pydantic fills its default. -/
def validatorSentiment (pid : Int) (s : ℚ) (item : RawItem) (u : String) :
    Option VerifiedSentiment :=
  mkVerifiedSentiment pid s (some (item.sentiment_text.getD "")) none (some u)

/-- Step 2 of the item loop (grounding.py lines 66-87): attempt the price
write only when the item has both `price` and `source_url`; a validation
failure appends an error; a backend refusal leaves the accumulator as is. -/
def processPriceStep (be : Backend) (pid : Int) (item : RawItem)
    (r : GroundingResult) : GroundingResult :=
  match item.price, item.source_url with
  | some p, some u =>
    match mkVerifiedPrice pid p (item.currency.getD "USD") (some u) with
    | some vp =>
      if be.savePrice pid vp then
        { r with prices_added := r.prices_added + 1 }
      else r
    | none => { r with errors := r.errors ++ [priceFailMsg] }
  | _, _ => r

/-- Step 3 of the item loop (grounding.py lines 90-110): attempt the
sentiment write only when the item has both `sentiment_score` and
`sentiment_source_url`. -/
def processSentimentStep (be : Backend) (pid : Int) (item : RawItem)
    (r : GroundingResult) : GroundingResult :=
  match item.sentiment_score, item.sentiment_source_url with
  | some s, some u =>
    match validatorSentiment pid s item u with
    | some vs =>
      if be.saveSentiment vs then
        { r with sentiments_added := r.sentiments_added + 1 }
      else r
    | none => { r with errors := r.errors ++ [sentimentFailMsg] }
  | _, _ => r

/-- One iteration of the loop of `process_scraped_data` (grounding.py
lines 44-115): create the product, then the price step, then the
sentiment step; a product-creation failure appends an error and moves on. -/
def processItem (be : Backend) (item : RawItem) (r : GroundingResult) :
    GroundingResult :=
  match be.createProduct item with
  | none => { r with errors := r.errors ++ [productFailMsg item] }
  | some pid =>
    processSentimentStep be pid item
      (processPriceStep be pid item
        { r with products_created := r.products_created + 1 })

/-- Model of `GroundingValidator.process_scraped_data` (grounding.py lines 31-120):
fold the item loop over the batch starting from the zeroed accumulator.
The trailing `_send_agent_logs` call is best-effort and does not touch the
returned result, so it is not modelled. -/
def process_scraped_data (be : Backend) (items : List RawItem) :
    GroundingResult :=
  items.foldl (fun r item => processItem be item r) GroundingResult.empty

/-! ## Browser scraper (`agent/scraper.py`)

The rendered page is an external collaborator; it is modelled as a triple
of oracles: the inner text of the first element matching a CSS selector,
the inner texts of all elements matching a selector in document order, and
the first full-page text node matching the price regex (the BeautifulSoup
search of scraper.py lines 326-328, whose HTML parsing is external). -/

structure PageModel where
  selectorText : String → Option String
  selectorAll : String → List String
  fallbackMatch : Option String

/-- The price selector priority list (scraper.py lines 300-310). -/
def price_selectors : List String :=
  ["[data-test=\"product-price\"]", ".price", "[itemprop=\"price\"]",
   "#priceblock_ourprice", "#priceblock_dealprice", ".product-price",
   ".price-now", "[class*=\"price\"]", "span:has-text(\"$\")"]

/-- The review selector priority list (scraper.py lines 343-350). -/
def review_selectors : List String :=
  ["[data-test=\"review-text\"]", ".review-text", "[itemprop=\"reviewBody\"]",
   ".review-content", ".customer-review", "[class*=\"review\"]"]

/-- The product-name selector priority list (scraper.py lines 275-281). -/
def name_selectors : List String :=
  ["h1", "[data-test=\"product-title\"]", ".product-title",
   "[itemprop=\"name\"]", "#productTitle"]

/-- Digits to a natural number. -/
def natOfDigits (ds : List Char) : Nat :=
  ds.foldl (fun n c => 10 * n + (c.toNat - '0'.toNat)) 0

/-- Model of `BrowserScraper._extract_price` (scraper.py lines 384-393): remove all
commas, find the first match of `[\d,]+\.?\d*` (after comma removal: a run
of digits, an optional dot, then optional digits) and parse it as a
decimal number. `none` when the text holds no digit. -/
def extract_price (price_text : String) : Option ℚ :=
  let cs := price_text.data.filter (fun c => c ≠ ',')
  match cs.dropWhile (fun c => !c.isDigit) with
  | [] => none
  | rest =>
    let intPart := rest.takeWhile Char.isDigit
    match rest.dropWhile Char.isDigit with
    | '.' :: rest2 =>
      let fracPart := rest2.takeWhile Char.isDigit
      some ((natOfDigits intPart : ℚ) +
        (natOfDigits fracPart : ℚ) / ((10 : ℚ) ^ fracPart.length))
    | _ => some ((natOfDigits intPart : ℚ))

/-- One iteration of the selector loop of `_extract_price_from_page`
(scraper.py lines 312-322): the selector's element text parsed to a price,
kept only when strictly positive (`if price and price > 0`). -/
def selectorPrice (page : PageModel) (sel : String) : Option ℚ :=
  match page.selectorText sel with
  | none => none
  | some t =>
    match extract_price t with
    | some p => if 0 < p then some p else none
    | none => none

/-- The first selector in priority order yielding a positive price. -/
def firstSelectorPrice (page : PageModel) : List String → Option ℚ
  | [] => none
  | sel :: rest =>
    match selectorPrice page sel with
    | some p => some p
    | none => firstSelectorPrice page rest

/-- The full-page fallback of `_extract_price_from_page` (scraper.py lines
325-334): parse the first text node matching the price regex, kept only
when strictly positive. -/
def fallbackPrice (page : PageModel) : Option ℚ :=
  match page.fallbackMatch with
  | none => none
  | some t =>
    match extract_price t with
    | some p => if 0 < p then some p else none
    | none => none

/-- A raised Python exception: its class name and message. -/
structure PyError where
  className : String
  message : String
deriving DecidableEq, Repr

/-- The exception raised at scraper.py line 336. -/
def priceExtractionError : PyError :=
  ⟨"ValueError", "Could not extract price from page"⟩

/-- Model of `BrowserScraper._extract_price_from_page` (scraper.py lines 295-336):
try each price selector in priority order, then the full-page fallback;
when neither yields a positive price, raise `ValueError`. -/
def extract_price_from_page (page : PageModel) : Except PyError ℚ :=
  match firstSelectorPrice page price_selectors with
  | some p => Except.ok p
  | none =>
    match fallbackPrice page with
    | some p => Except.ok p
    | none => Except.error priceExtractionError

/-- Model of `BrowserScraper._extract_product_name` (scraper.py lines 273-293):
first selector whose element text is non-empty after stripping, truncated
to 100 characters; default `"Unknown Product"`. -/
def extract_product_name_from (page : PageModel) : List String → String
  | [] => "Unknown Product"
  | sel :: rest =>
    match page.selectorText sel with
    | some t =>
      if 0 < (pyStrip t).length then pyTake (pyStrip t) 100
      else extract_product_name_from page rest
    | none => extract_product_name_from page rest

def extract_product_name (page : PageModel) : String :=
  extract_product_name_from page name_selectors

/-- The inner element loop of `_extract_reviews` (scraper.py lines
357-364): walk the matched texts in document order; retain a text iff its
stripped form is strictly longer than 20 characters (the Python truthiness
guard `if text` is subsumed: an empty text strips to length 0); append its
stripped form truncated to 500 characters; break once `limit` reviews are
gathered. -/
def collectReviews (limit : Nat) : List String → List String → List String
  | [], acc => acc
  | t :: rest, acc =>
    if 20 < (pyStrip t).length then
      let acc2 := acc ++ [pyTake (pyStrip t) 500]
      if limit ≤ acc2.length then acc2 else collectReviews limit rest acc2
    else collectReviews limit rest acc

/-- The selector loop of `_extract_reviews` (scraper.py lines 355-369):
once a selector yields at least one review, stop — lower-priority
selectors are not tried. -/
def reviewsFromSelectors (page : PageModel) (limit : Nat) :
    List String → List String
  | [] => []
  | sel :: rest =>
    let r := collectReviews limit (page.selectorAll sel) []
    if r.isEmpty then reviewsFromSelectors page limit rest else r

/-- Model of `BrowserScraper._extract_reviews` (scraper.py lines 338-371); the
final `reviews[:limit]` is the trailing `take`. -/
def extract_reviews (page : PageModel) (limit : Nat) : List String :=
  (reviewsFromSelectors page limit review_selectors).take limit

/-- The fixed positive lexicon (scraper.py line 402). -/
def positive_words : List String :=
  ["great", "excellent", "amazing", "love", "perfect", "recommend", "best"]

/-- The fixed negative lexicon (scraper.py line 403). -/
def negative_words : List String :=
  ["bad", "terrible", "poor", "worst", "disappointing", "waste", "awful"]

/-- The local `positive_count` of `_estimate_sentiment` (scraper.py line
405): `sum(1 for word in positive_words if word in text_lower)` — one per
lexicon term present as a substring. -/
def positiveCount (text_lower : String) : Nat :=
  (positive_words.filter (fun w => pyContains w text_lower)).length

/-- The local `negative_count` of `_estimate_sentiment` (scraper.py line
406). -/
def negativeCount (text_lower : String) : Nat :=
  (negative_words.filter (fun w => pyContains w text_lower)).length

/-- Model of `BrowserScraper._estimate_sentiment` (scraper.py lines 395-413):
lowercase the text, count how many lexicon terms occur in it (substring
membership, one per term), and scale to `[-1, 1]`. -/
def estimate_sentiment (text : String) : ℚ :=
  if positiveCount (pyLower text) + negativeCount (pyLower text) = 0 then 0
  else ((positiveCount (pyLower text) : ℚ) - (negativeCount (pyLower text) : ℚ)) /
    ((positiveCount (pyLower text) : ℚ) + (negativeCount (pyLower text) : ℚ))

/-- Model of `BrowserScraper._calculate_sentiment_from_reviews` (scraper.py lines
373-382): the arithmetic mean of the per-review scores, `0` for the empty
list. -/
def calculate_sentiment_from_reviews (reviews : List String) : ℚ :=
  if reviews.isEmpty then 0
  else ((reviews.map estimate_sentiment).sum) / ((reviews.length : Nat) : ℚ)

/-- Model of `urlparse(url).netloc` (scraper.py lines 252-253) for `http(s)` URLs:
the host part after the scheme. -/
def urlDomain (url : String) : String :=
  match schemeRest url.data with
  | some rest => ⟨urlHost rest⟩
  | none => ""

/-- Model of `BrowserScraper.scrape_live_site` (scraper.py lines 227-271): extract
name, price and up to 3 reviews, score the sentiment, and assemble the
candidate record of lines 255-265. Any extraction exception (in
particular the `ValueError` of a failed price extraction) is caught and
turns the result into `None`. The assembled dict carries the keys listed
at lines 255-265 and no others. -/
def scrape_live_site (page : PageModel) (url : String) : Option RawItem :=
  match extract_price_from_page page with
  | Except.error _ => none
  | Except.ok price =>
    let reviews := extract_reviews page 3
    let sentiment_text := match reviews with | [] => "" | r :: _ => r
    let domain := urlDomain url
    some
      { name := some (extract_product_name page)
        category := some "Unknown"
        competitor := some domain
        price := some price
        currency := none
        sentiment_score := some (calculate_sentiment_from_reviews reviews)
        sentiment_text := some (pyTake sentiment_text 200)
        sentiment_source_url := none
        raw_reviews := some reviews
        source_url := some url
        insight := some ("Live data extracted from " ++ domain) }

/-- Model of `name.lower().replace(' ', '-')` (scraper.py lines 211-212). -/
def slugOf (nm : String) : String :=
  ⟨(pyLower nm).data.map (fun c => if c = ' ' then '-' else c)⟩

/-- The demo-mode URL stamping loop (scraper.py lines 210-212): every
selected demo product receives both a `source_url` and a
`sentiment_source_url`. -/
def demoStamp (it : RawItem) : RawItem :=
  { it with
    source_url :=
      some ("https://example.com/products/" ++ slugOf (it.name.getD ""))
    sentiment_source_url :=
      some ("https://example.com/reviews/" ++ slugOf (it.name.getD "")) }

/-- Model of `BrowserScraper.scrape_demo_data` (scraper.py lines 60-225): a URL
target first tries live scraping and falls back to the demo pool when the
live path fails; a symbolic target goes straight to the demo pool. The
`random.sample` selection of 3-5 pool products is abstracted as the
`selected` parameter; each selected product is stamped with both source
URLs. -/
def scrape_demo_data (page : PageModel) (selected : List RawItem)
    (target : String) : List RawItem :=
  if pyStartsWith target "http://" || pyStartsWith target "https://" then
    match scrape_live_site page target with
    | some live => [live]
    | none => selected.map demoStamp
  else selected.map demoStamp

/-! ## Spec-side readings (for refinement comparison only)

These definitions follow the spec's words, not the source; each is
compared against the corresponding source-derived definition above. -/

/-- The number of (possibly overlapping) occurrences of `w` in `s`: the
count of positions where `w` starts. -/
def countOccurrences (w s : String) : Nat :=
  ((List.range (s.data.length + 1)).filter
    (fun i => w.data.isPrefixOf (s.data.drop i))).length

/-- The spec's reading of the per-review score: "count occurrences of each
term" of the two lexicons, then `(pos_count - neg_count) / (pos_count +
neg_count)` when the denominator is nonzero, else `0`. -/
def estimate_sentiment_occ (text : String) : ℚ :=
  if (positive_words.map (fun w => countOccurrences w (pyLower text))).sum +
      (negative_words.map (fun w => countOccurrences w (pyLower text))).sum = 0
  then 0
  else (((positive_words.map (fun w => countOccurrences w (pyLower text))).sum : ℚ) -
      ((negative_words.map (fun w => countOccurrences w (pyLower text))).sum : ℚ)) /
    (((positive_words.map (fun w => countOccurrences w (pyLower text))).sum : ℚ) +
      ((negative_words.map (fun w => countOccurrences w (pyLower text))).sum : ℚ))

/-- Characterization of the inner review loop: the retained blocks are the
stripped texts strictly longer than 20 characters, in document order, each
truncated to 500 characters. -/
def retainedReviews (texts : List String) : List String :=
  ((texts.map pyStrip).filter (fun t => 20 < t.length)).map
    (fun t => pyTake t 500)

/-! ## Concrete fixtures -/

/-- A fully-populated candidate item; `hasSrc` controls whether the
`source_url` key is present. -/
def mkItem (nm : String) (hasSrc : Bool) : RawItem :=
  { name := some nm, category := some "Electronics", competitor := some "X",
    price := some 10, currency := none,
    source_url := if hasSrc then some ("https://example.com/p/" ++ nm) else none,
    sentiment_score := some 1, sentiment_text := some "ok",
    sentiment_source_url := some ("https://example.com/r/" ++ nm),
    raw_reviews := none, insight := some "" }

/-- A backend that accepts every write (`201` on every call). -/
def acceptAll : Backend :=
  { createProduct := fun _ => some 1,
    savePrice := fun _ _ => true,
    saveSentiment := fun _ => true }

/-- A backend that creates products but rejects every price and sentiment
write (non-`201` status). -/
def rejectWrites : Backend :=
  { createProduct := fun _ => some 1,
    savePrice := fun _ _ => false,
    saveSentiment := fun _ => false }

/-- A backend whose product endpoint is down (non-`201` on creation). -/
def productsDown : Backend :=
  { createProduct := fun _ => none,
    savePrice := fun _ _ => true,
    saveSentiment := fun _ => true }

/-- Five otherwise-valid candidate items of which exactly two (the third
and the fifth) lack `source_url`. -/
def batch5 : List RawItem :=
  [mkItem "a" true, mkItem "b" true, mkItem "c" false,
   mkItem "d" true, mkItem "e" false]

/-- A single fully-valid candidate item. -/
def goodItem : RawItem := mkItem "g" true

/-- A page where no selector matches and the full-page fallback finds no
price text. -/
def deadPage : PageModel :=
  { selectorText := fun _ => none, selectorAll := fun _ => [],
    fallbackMatch := none }

/-- A live product page: an `h1` title and a `.price` element. -/
def livePage : PageModel :=
  { selectorText := fun s =>
      if s = "h1" then some "Widget"
      else if s = ".price" then some "$80" else none,
    selectorAll := fun _ => [], fallbackMatch := none }

/-- The record `scrape_live_site` assembles from `livePage`. -/
def liveRecord : RawItem :=
  { name := some "Widget", category := some "Unknown",
    competitor := some "shop.example.com", price := some 80,
    currency := none, sentiment_score := some 0, sentiment_text := some "",
    sentiment_source_url := none, raw_reviews := some [],
    source_url := some "https://shop.example.com/widget",
    insight := some "Live data extracted from shop.example.com" }

/-- A page whose first review selector matches a single block of exactly
20 characters. -/
def reviewPage20 : PageModel :=
  { selectorText := fun _ => none,
    selectorAll := fun sel =>
      if sel = "[data-test=\"review-text\"]"
      then ["aaaaaaaaaaaaaaaaaaaa"] else [],
    fallbackMatch := none }

/-- An item carrying extracted raw review texts. -/
def itemWithReviews : RawItem :=
  { mkItem "r" true with raw_reviews := some ["Great!", "Works well"] }

/-! ## Helper lemmas -/

theorem valid_url_nonempty (u : String) (h : isValidHttpUrl u = true) : u ≠ "" := by
  intro he
  subst he
  exact absurd h (by decide)

theorem merge_empty_left (r : GroundingResult) :
    GroundingResult.empty.merge r = r := by
  cases r
  simp [GroundingResult.merge, GroundingResult.empty]

theorem merge_empty_right (r : GroundingResult) :
    r.merge GroundingResult.empty = r := by
  cases r
  simp [GroundingResult.merge, GroundingResult.empty]

theorem merge_assoc (a b c : GroundingResult) :
    (a.merge b).merge c = a.merge (b.merge c) := by
  cases a; cases b; cases c
  simp [GroundingResult.merge, Nat.add_assoc]

theorem created_incr_merge (r : GroundingResult) :
    { r with products_created := r.products_created + 1 } =
      r.merge ⟨1, 0, 0, []⟩ := by
  cases r
  simp [GroundingResult.merge]

theorem processPriceStep_merge (be : Backend) (pid : Int) (item : RawItem)
    (r : GroundingResult) :
    processPriceStep be pid item r =
      r.merge (processPriceStep be pid item GroundingResult.empty) := by
  unfold processPriceStep
  cases hp : item.price <;> cases hu : item.source_url <;>
    simp [merge_empty_right]
  cases hmk : mkVerifiedPrice pid _ (item.currency.getD "USD") (some _) <;>
    simp [GroundingResult.merge, GroundingResult.empty]
  cases hs : be.savePrice pid _ <;>
    simp [GroundingResult.merge, GroundingResult.empty, merge_empty_right]

theorem processSentimentStep_merge (be : Backend) (pid : Int) (item : RawItem)
    (r : GroundingResult) :
    processSentimentStep be pid item r =
      r.merge (processSentimentStep be pid item GroundingResult.empty) := by
  unfold processSentimentStep
  cases hp : item.sentiment_score <;> cases hu : item.sentiment_source_url <;>
    simp [merge_empty_right]
  cases hmk : validatorSentiment pid _ item _ <;>
    simp [GroundingResult.merge, GroundingResult.empty]
  cases hs : be.saveSentiment _ <;>
    simp [GroundingResult.merge, GroundingResult.empty, merge_empty_right]

theorem shift_compose (f g : GroundingResult → GroundingResult)
    (hf : ∀ r, f r = r.merge (f GroundingResult.empty))
    (hg : ∀ r, g r = r.merge (g GroundingResult.empty)) (r : GroundingResult) :
    g (f r) = r.merge (g (f GroundingResult.empty)) := by
  rw [hf r, hg (r.merge (f GroundingResult.empty)), hg (f GroundingResult.empty),
    merge_assoc]

theorem incr_shift (s : GroundingResult) :
    ({ s with products_created := s.products_created + 1 } : GroundingResult) =
      s.merge ({ GroundingResult.empty with
        products_created := GroundingResult.empty.products_created + 1 }) := by
  rw [created_incr_merge]
  rfl

theorem processItem_merge (be : Backend) (item : RawItem) (r : GroundingResult) :
    processItem be item r = r.merge (processItem be item GroundingResult.empty) := by
  unfold processItem
  cases hc : be.createProduct item with
  | none =>
    cases r
    simp [GroundingResult.merge, GroundingResult.empty]
  | some pid =>
    exact shift_compose
      (fun s => processPriceStep be pid item
        { s with products_created := s.products_created + 1 })
      (processSentimentStep be pid item)
      (fun s => shift_compose
        (fun s => ({ s with products_created := s.products_created + 1 } :
          GroundingResult))
        (processPriceStep be pid item) incr_shift
        (processPriceStep_merge be pid item) s)
      (processSentimentStep_merge be pid item) r

theorem foldl_merge_shift (l : List GroundingResult) (a : GroundingResult) :
    l.foldl GroundingResult.merge a =
      a.merge (l.foldl GroundingResult.merge GroundingResult.empty) := by
  induction l generalizing a with
  | nil => simp [merge_empty_right]
  | cons b l ih =>
    simp only [List.foldl_cons]
    rw [ih (a.merge b), ih (GroundingResult.empty.merge b), merge_empty_left,
      merge_assoc]

theorem process_decomp (be : Backend) (items : List RawItem) :
    process_scraped_data be items =
      (items.map (fun it => processItem be it GroundingResult.empty)).foldl
        GroundingResult.merge GroundingResult.empty := by
  unfold process_scraped_data
  suffices h : ∀ (l : List RawItem) (r : GroundingResult),
      l.foldl (fun r item => processItem be item r) r =
        r.merge ((l.map (fun it => processItem be it GroundingResult.empty)).foldl
          GroundingResult.merge GroundingResult.empty) by
    rw [h items GroundingResult.empty, merge_empty_left]
  intro l
  induction l with
  | nil =>
    intro r
    simp [merge_empty_right]
  | cons it l ih =>
    intro r
    simp only [List.foldl_cons, List.map_cons]
    rw [ih (processItem be it r), processItem_merge,
      foldl_merge_shift
        ((l.map (fun it => processItem be it GroundingResult.empty)))
        (GroundingResult.empty.merge (processItem be it GroundingResult.empty)),
      merge_empty_left, merge_assoc]

theorem processPriceStep_fields (be : Backend) (pid : Int) (item : RawItem)
    (r : GroundingResult) :
    (processPriceStep be pid item r).products_created = r.products_created
    ∧ (processPriceStep be pid item r).sentiments_added = r.sentiments_added
    ∧ r.prices_added ≤ (processPriceStep be pid item r).prices_added
    ∧ (processPriceStep be pid item r).prices_added ≤ r.prices_added + 1 := by
  unfold processPriceStep
  cases hp : item.price <;> cases hu : item.source_url <;> simp
  cases hmk : mkVerifiedPrice pid _ (item.currency.getD "USD") (some _) <;> simp
  cases hs : be.savePrice pid _ <;> simp

theorem processSentimentStep_fields (be : Backend) (pid : Int) (item : RawItem)
    (r : GroundingResult) :
    (processSentimentStep be pid item r).products_created = r.products_created
    ∧ (processSentimentStep be pid item r).prices_added = r.prices_added
    ∧ r.sentiments_added ≤ (processSentimentStep be pid item r).sentiments_added
    ∧ (processSentimentStep be pid item r).sentiments_added ≤ r.sentiments_added + 1 := by
  unfold processSentimentStep
  cases hp : item.sentiment_score <;> cases hu : item.sentiment_source_url <;> simp
  cases hmk : validatorSentiment pid _ item _ <;> simp
  cases hs : be.saveSentiment _ <;> simp

theorem processItem_inv (be : Backend) (item : RawItem) (r : GroundingResult)
    (h1 : r.prices_added ≤ r.products_created)
    (h2 : r.sentiments_added ≤ r.products_created) :
    (processItem be item r).prices_added ≤ (processItem be item r).products_created
    ∧ (processItem be item r).sentiments_added ≤
      (processItem be item r).products_created := by
  unfold processItem
  cases hc : be.createProduct item with
  | none => simpa using ⟨h1, h2⟩
  | some pid =>
    dsimp only
    obtain ⟨hp1, hp2, hp3, hp4⟩ := processPriceStep_fields be pid item
      { r with products_created := r.products_created + 1 }
    obtain ⟨hs1, hs2, hs3, hs4⟩ := processSentimentStep_fields be pid item
      (processPriceStep be pid item
        { r with products_created := r.products_created + 1 })
    have e1 : ({ r with products_created := r.products_created + 1 } :
      GroundingResult).products_created = r.products_created + 1 := rfl
    have e2 : ({ r with products_created := r.products_created + 1 } :
      GroundingResult).prices_added = r.prices_added := rfl
    have e3 : ({ r with products_created := r.products_created + 1 } :
      GroundingResult).sentiments_added = r.sentiments_added := rfl
    constructor <;> omega

theorem processSentimentStep_errors (be : Backend) (pid : Int) (item : RawItem)
    (r : GroundingResult) :
    ∃ tail, (processSentimentStep be pid item r).errors = r.errors ++ tail := by
  unfold processSentimentStep
  cases hp : item.sentiment_score with
  | none => cases hu : item.sentiment_source_url <;> exact ⟨[], by simp⟩
  | some s =>
    cases hu : item.sentiment_source_url with
    | none => exact ⟨[], by simp⟩
    | some u =>
      cases hmk : validatorSentiment pid s item u with
      | none => exact ⟨[sentimentFailMsg], by simp [hmk]⟩
      | some vs =>
        cases hs : be.saveSentiment vs with
        | false => exact ⟨[], by simp [hmk, hs]⟩
        | true => exact ⟨[], by simp [hmk, hs]⟩

theorem firstSelectorPrice_none (page : PageModel) (l : List String)
    (h : ∀ sel ∈ l, selectorPrice page sel = none) :
    firstSelectorPrice page l = none := by
  induction l with
  | nil => rfl
  | cons sel rest ih =>
    unfold firstSelectorPrice
    rw [h sel (List.mem_cons_self sel rest)]
    exact ih (fun s hs => h s (List.mem_cons_of_mem sel hs))

theorem collectReviews_char (limit : Nat) (texts : List String) :
    ∀ acc : List String, acc.length < limit →
      collectReviews limit texts acc = (acc ++ retainedReviews texts).take limit := by
  induction texts with
  | nil =>
    intro acc hacc
    simp [collectReviews, retainedReviews, List.take_of_length_le (Nat.le_of_lt hacc)]
  | cons t rest ih =>
    intro acc hacc
    unfold collectReviews
    by_cases h20 : 20 < (pyStrip t).length
    · simp only [h20, if_true]
      by_cases hl : limit ≤ (acc ++ [pyTake (pyStrip t) 500]).length
      · simp only [hl, if_true]
        have hlen : (acc ++ [pyTake (pyStrip t) 500]).length = acc.length + 1 := by
          simp
        have hlim : limit = (acc ++ [pyTake (pyStrip t) 500]).length := by omega
        rw [hlim]
        have : acc ++ retainedReviews (t :: rest) =
            (acc ++ [pyTake (pyStrip t) 500]) ++ retainedReviews rest := by
          simp [retainedReviews, List.filter_cons, h20]
        rw [this, List.take_left]
      · simp only [hl, if_false]
        rw [ih (acc ++ [pyTake (pyStrip t) 500]) (by simp at hl ⊢; omega)]
        have : (acc ++ [pyTake (pyStrip t) 500]) ++ retainedReviews rest =
            acc ++ retainedReviews (t :: rest) := by
          simp [retainedReviews, List.filter_cons, h20]
        rw [this]
    · simp only [h20, if_false]
      rw [ih acc hacc]
      have : retainedReviews (t :: rest) = retainedReviews rest := by
        simp [retainedReviews, List.filter_cons, h20]
      rw [this]

theorem collectReviews_mem (limit : Nat) (texts : List String) :
    ∀ (acc : List String) (r : String), r ∈ collectReviews limit texts acc →
      r ∈ acc ∨ ∃ t, r = pyTake t 500 := by
  induction texts with
  | nil =>
    intro acc r hr
    exact Or.inl (by simpa [collectReviews] using hr)
  | cons t rest ih =>
    intro acc r hr
    unfold collectReviews at hr
    by_cases h20 : 20 < (pyStrip t).length
    · simp only [h20, if_true] at hr
      by_cases hl : limit ≤ (acc ++ [pyTake (pyStrip t) 500]).length
      · simp only [hl, if_true] at hr
        rcases List.mem_append.mp hr with h | h
        · exact Or.inl h
        · exact Or.inr ⟨pyStrip t, by simpa using h⟩
      · simp only [hl, if_false] at hr
        rcases ih (acc ++ [pyTake (pyStrip t) 500]) r hr with h | h
        · rcases List.mem_append.mp h with h2 | h2
          · exact Or.inl h2
          · exact Or.inr ⟨pyStrip t, by simpa using h2⟩
        · exact Or.inr h
    · simp only [h20, if_false] at hr
      exact ih acc r hr

theorem reviewsFromSelectors_mem (page : PageModel) (limit : Nat)
    (sels : List String) (r : String)
    (hr : r ∈ reviewsFromSelectors page limit sels) :
    ∃ t, r = pyTake t 500 := by
  induction sels with
  | nil => simp [reviewsFromSelectors] at hr
  | cons sel rest ih =>
    unfold reviewsFromSelectors at hr
    by_cases he : (collectReviews limit (page.selectorAll sel) []).isEmpty
    · simp only [he, if_true] at hr
      exact ih hr
    · simp only [he, if_false] at hr
      rcases collectReviews_mem limit (page.selectorAll sel) [] r hr with h | h
      · simp at h
      · exact h

theorem pyTake_length_le (t : String) (n : Nat) : (pyTake t n).data.length ≤ n := by
  simp [pyTake]

/-- An otherwise-valid item whose price violates the positivity invariant. -/
def badPriceItem : RawItem := { mkItem "x" true with price := some (-5) }

theorem priceFail_mem (be : Backend) (pid : Int) (it : RawItem)
    (r : GroundingResult) (p : ℚ) (u : String) (hp : it.price = some p)
    (hu : it.source_url = some u)
    (hmk : mkVerifiedPrice pid p (it.currency.getD "USD") (some u) = none) :
    priceFailMsg ∈
      (processSentimentStep be pid it (processPriceStep be pid it r)).errors := by
  obtain ⟨tail, htail⟩ := processSentimentStep_errors be pid it
    (processPriceStep be pid it r)
  rw [htail]
  have hps : processPriceStep be pid it r =
      { r with errors := r.errors ++ [priceFailMsg] } := by
    unfold processPriceStep
    simp only [hp, hu, hmk]
  rw [hps]
  simp

theorem sentimentFail_mem (be : Backend) (pid : Int) (it : RawItem)
    (x : GroundingResult) (s : ℚ) (u : String)
    (hs : it.sentiment_score = some s) (hu : it.sentiment_source_url = some u)
    (hmk : validatorSentiment pid s it u = none) :
    sentimentFailMsg ∈ (processSentimentStep be pid it x).errors := by
  unfold processSentimentStep
  simp only [hs, hu, hmk]
  simp

/-- C1: every successfully constructed `VerifiedPrice` or `VerifiedSentiment`
carries a non-empty, syntactically well-formed absolute `source_url` (and a
strictly positive price, an in-range sentiment score); construction with a
missing (`none`), empty, or malformed `source_url`, a non-positive price,
or an out-of-range sentiment score fails (yields `none`). -/
theorem C1_construction_invariant :
    (∀ (pid : Int) (p : ℚ) (cur : String) (url : Option String)
      (v : VerifiedPrice), mkVerifiedPrice pid p cur url = some v →
        v.source_url ≠ "" ∧ isValidHttpUrl v.source_url = true ∧ 0 < v.price)
    ∧ (∀ (pid : Int) (p : ℚ) (cur : String),
        mkVerifiedPrice pid p cur none = none)
    ∧ (∀ (pid : Int) (p : ℚ) (cur : String) (u : String),
        ¬ 0 < p ∨ isValidHttpUrl u = false →
          mkVerifiedPrice pid p cur (some u) = none)
    ∧ (∀ (pid : Int) (s : ℚ) (txt : Option String) (rr : Option (List String))
        (url : Option String) (v : VerifiedSentiment),
        mkVerifiedSentiment pid s txt rr url = some v →
          v.source_url ≠ "" ∧ isValidHttpUrl v.source_url = true ∧
            -1 ≤ v.sentiment_score ∧ v.sentiment_score ≤ 1)
    ∧ (∀ (pid : Int) (s : ℚ) (txt : Option String)
        (rr : Option (List String)), mkVerifiedSentiment pid s txt rr none = none)
    ∧ (∀ (pid : Int) (s : ℚ) (txt : Option String) (rr : Option (List String))
        (u : String), ¬ (-1 ≤ s ∧ s ≤ 1) ∨ isValidHttpUrl u = false →
          mkVerifiedSentiment pid s txt rr (some u) = none) := by
  refine ⟨?_, ?_, ?_, ?_, ?_, ?_⟩
  · intro pid p cur url v h
    cases url with
    | none => simp [mkVerifiedPrice] at h
    | some u =>
      unfold mkVerifiedPrice at h
      dsimp only at h
      by_cases hc : 0 < p ∧ isValidHttpUrl u = true
      · rw [if_pos hc] at h
        cases h
        exact ⟨valid_url_nonempty u hc.2, hc.2, hc.1⟩
      · rw [if_neg hc] at h
        exact absurd h (by simp)
  · intro pid p cur
    rfl
  · intro pid p cur u h
    unfold mkVerifiedPrice
    dsimp only
    rw [if_neg]
    rintro ⟨h1, h2⟩
    rcases h with h | h
    · exact h h1
    · rw [h] at h2
      exact Bool.false_ne_true h2
  · intro pid s txt rr url v h
    cases url with
    | none => simp [mkVerifiedSentiment] at h
    | some u =>
      unfold mkVerifiedSentiment at h
      dsimp only at h
      by_cases hc : -1 ≤ s ∧ s ≤ 1 ∧ isValidHttpUrl u = true
      · rw [if_pos hc] at h
        cases h
        exact ⟨valid_url_nonempty u hc.2.2, hc.2.2, hc.1, hc.2.1⟩
      · rw [if_neg hc] at h
        exact absurd h (by simp)
  · intro pid s txt rr
    rfl
  · intro pid s txt rr u h
    unfold mkVerifiedSentiment
    dsimp only
    rw [if_neg]
    rintro ⟨h1, h2, h3⟩
    rcases h with h | h
    · exact h ⟨h1, h2⟩
    · rw [h] at h3
      exact Bool.false_ne_true h3

/-- Witness for C1 at concrete inputs: a valid construction satisfies the
invariant, and a missing, empty, and malformed `source_url`, a
non-positive price, and an out-of-range sentiment score each fail. -/
theorem C1_construction_invariant_witness :
    ((VerifiedPrice.mk 1 5 "USD" "https://example.com/p").source_url ≠ ""
      ∧ isValidHttpUrl
          (VerifiedPrice.mk 1 5 "USD" "https://example.com/p").source_url = true
      ∧ 0 < (VerifiedPrice.mk 1 5 "USD" "https://example.com/p").price)
    ∧ mkVerifiedPrice 1 5 "USD" none = none
    ∧ mkVerifiedPrice 1 5 "USD" (some "") = none
    ∧ mkVerifiedPrice 1 0 "USD" (some "https://example.com/p") = none
    ∧ mkVerifiedSentiment 1 2 (some "") none (some "https://example.com/p") = none :=
  ⟨C1_construction_invariant.1 1 5 "USD" (some "https://example.com/p") _
      (by decide),
   C1_construction_invariant.2.1 1 5 "USD",
   C1_construction_invariant.2.2.1 1 5 "USD" "" (Or.inr (by decide)),
   C1_construction_invariant.2.2.1 1 0 "USD" "https://example.com/p"
      (Or.inl (by norm_num)),
   C1_construction_invariant.2.2.2.2.2 1 2 (some "") none "https://example.com/p"
      (Or.inl (by norm_num))⟩

/-- C2: `process_scraped_data` always returns a `GroundingResult` that is
the independent composition of the per-item outcomes (so no single item's
failure can abort the batch or affect another item's contribution), and
every item-level failure is caught and appended to `errors`: a
product-creation failure contributes exactly one error message and nothing
else; a price or sentiment validation failure appends its message while
processing continues. -/
theorem C2_batch_isolation (be : Backend) (items : List RawItem) :
    process_scraped_data be items =
      (items.map (fun it => processItem be it GroundingResult.empty)).foldl
        GroundingResult.merge GroundingResult.empty
    ∧ (∀ it, be.createProduct it = none →
        processItem be it GroundingResult.empty = ⟨0, 0, 0, [productFailMsg it]⟩)
    ∧ (∀ it pid p u, be.createProduct it = some pid → it.price = some p →
        it.source_url = some u →
        mkVerifiedPrice pid p (it.currency.getD "USD") (some u) = none →
        priceFailMsg ∈ (processItem be it GroundingResult.empty).errors)
    ∧ (∀ it pid s u, be.createProduct it = some pid →
        it.sentiment_score = some s → it.sentiment_source_url = some u →
        validatorSentiment pid s it u = none →
        sentimentFailMsg ∈ (processItem be it GroundingResult.empty).errors) := by
  refine ⟨process_decomp be items, ?_, ?_, ?_⟩
  · intro it hc
    simp [processItem, hc, GroundingResult.empty]
  · intro it pid p u hc hp hu hmk
    unfold processItem
    simp only [hc]
    exact priceFail_mem be pid it _ p u hp hu hmk
  · intro it pid s u hc hs hu hmk
    unfold processItem
    simp only [hc]
    exact sentimentFail_mem be pid it _ s u hs hu hmk

/-- Witness for C2: a backend whose product endpoint is down yields exactly
one error for the item and an otherwise untouched accumulator, and an
invalid price on an accepted product appends the price-validation message. -/
theorem C2_batch_isolation_witness :
    processItem productsDown goodItem GroundingResult.empty =
      ⟨0, 0, 0, [productFailMsg goodItem]⟩
    ∧ priceFailMsg ∈ (processItem acceptAll badPriceItem GroundingResult.empty).errors :=
  ⟨(C2_batch_isolation productsDown []).2.1 goodItem rfl,
   (C2_batch_isolation acceptAll []).2.2.1 badPriceItem 1 (-5)
      "https://example.com/p/x" rfl rfl rfl (by decide)⟩

/-- C9: in every returned `GroundingResult`, `prices_added` and
`sentiments_added` are each at most `products_created`: a write is
attempted only after the item's product was created, and each item
contributes at most one to each counter. -/
theorem C9_counter_inequalities (be : Backend) (items : List RawItem) :
    (process_scraped_data be items).prices_added ≤
      (process_scraped_data be items).products_created
    ∧ (process_scraped_data be items).sentiments_added ≤
      (process_scraped_data be items).products_created := by
  unfold process_scraped_data
  suffices h : ∀ (l : List RawItem) (r : GroundingResult),
      r.prices_added ≤ r.products_created →
      r.sentiments_added ≤ r.products_created →
      (l.foldl (fun r item => processItem be item r) r).prices_added ≤
        (l.foldl (fun r item => processItem be item r) r).products_created
      ∧ (l.foldl (fun r item => processItem be item r) r).sentiments_added ≤
        (l.foldl (fun r item => processItem be item r) r).products_created by
    exact h items GroundingResult.empty (by simp [GroundingResult.empty])
      (by simp [GroundingResult.empty])
  intro l
  induction l with
  | nil => exact fun r h1 h2 => ⟨h1, h2⟩
  | cons it l ih =>
    intro r h1 h2
    simp only [List.foldl_cons]
    obtain ⟨g1, g2⟩ := processItem_inv be it r h1 h2
    exact ih (processItem be it r) g1 g2

/-- C10: every `VerifiedSentiment` the validator constructs has
`raw_reviews = none`: the constructor call at grounding.py lines 92-97
never passes the item's `raw_reviews` field, whatever the item holds. -/
theorem C10_raw_reviews_never_forwarded (pid : Int) (s : ℚ) (item : RawItem)
    (u : String) (v : VerifiedSentiment)
    (h : validatorSentiment pid s item u = some v) :
    v.raw_reviews = none := by
  unfold validatorSentiment mkVerifiedSentiment at h
  dsimp only at h
  by_cases hc : -1 ≤ s ∧ s ≤ 1 ∧ isValidHttpUrl u = true
  · rw [if_pos hc] at h
    cases h
    rfl
  · rw [if_neg hc] at h
    exact absurd h (by simp)

/-- Witness for C10: an item that does carry extracted raw reviews still
yields a persisted sentiment with `raw_reviews = none`. -/
theorem C10_raw_reviews_never_forwarded_witness :
    (VerifiedSentiment.mk 1 1 (some "ok") none "https://example.com/r/r").raw_reviews
      = none :=
  C10_raw_reviews_never_forwarded 1 1 itemWithReviews "https://example.com/r/r" _
    (by decide)

/-- C3 (code bug): every record assembled by a successful live-mode
extraction carries `source_url = url`, but it carries NO
`sentiment_source_url` key at all — yet the grounding validator persists a
sentiment only when `sentiment_source_url` is present, so a live-mode
sentiment is never persisted. The spec's claim that both keys are stamped
with the page URL does not hold for `sentiment_source_url`. -/
theorem C3_live_record_urls (page : PageModel) (url : String) (d : RawItem)
    (h : scrape_live_site page url = some d) :
    d.source_url = some url ∧ d.sentiment_source_url = none := by
  unfold scrape_live_site at h
  cases hp : extract_price_from_page page with
  | error e => rw [hp] at h; exact absurd h (by simp)
  | ok price =>
    rw [hp] at h
    dsimp only at h
    cases h
    exact ⟨rfl, rfl⟩

/-- Witness for C3: the concrete live page yields a record stamped with
the page URL as `source_url` and with no `sentiment_source_url`. -/
theorem C3_live_record_urls_witness :
    liveRecord.source_url = some "https://shop.example.com/widget"
    ∧ liveRecord.sentiment_source_url = none :=
  C3_live_record_urls livePage "https://shop.example.com/widget" liveRecord
    (by rfl)

/-- C4 counterexample: for the concrete batch of 5 otherwise-valid items
of which exactly 2 lack `source_url`, with a backend that accepts every
write, the result counts only the 3 attributable prices but records NO
error entries — not the 2 entries the claim requires. -/
theorem C4_counterexample :
    process_scraped_data acceptAll batch5 =
      ⟨5, 3, 5, []⟩
    ∧ (process_scraped_data acceptAll batch5).errors.length ≠ 2 := by
  constructor
  · decide
  · decide

/-- C4 (amended): in a batch where some otherwise-valid items lack
`source_url`, the batch completes with `prices_added` counting only the
attributable items, but the items lacking `source_url` are skipped
silently — no error entry is recorded for them (the price step leaves the
accumulator untouched when `source_url` or `price` is absent), and the
sentiment flow is governed by the separate `sentiment_source_url` key. -/
theorem C4_silent_skip (be : Backend) (pid : Int) (it : RawItem)
    (r : GroundingResult) :
    (it.source_url = none → processPriceStep be pid it r = r)
    ∧ (it.price = none → processPriceStep be pid it r = r) := by
  constructor
  · intro hu
    unfold processPriceStep
    cases hp : it.price <;> rw [hu]
  · intro hp
    unfold processPriceStep
    rw [hp]

/-- Witness for C4: the third batch item (no `source_url`) leaves the
accumulator unchanged through the price step, and the concrete batch of 5
yields 3 prices, 5 products, 5 sentiments and an empty error list. -/
theorem C4_silent_skip_witness :
    processPriceStep acceptAll 1 (mkItem "c" false) GroundingResult.empty =
      GroundingResult.empty :=
  (C4_silent_skip acceptAll 1 (mkItem "c" false) GroundingResult.empty).1 rfl

/-- C5 counterexample: with a backend that rejects every price and
sentiment write (non-201), a fully-valid single-item batch returns
`prices_added = 0` but an EMPTY `errors` list — the rejection is not
recorded, contrary to the claim. -/
theorem C5_counterexample :
    process_scraped_data rejectWrites [goodItem] = ⟨1, 0, 0, []⟩
    ∧ (process_scraped_data rejectWrites [goodItem]).errors = [] := by
  constructor
  · decide
  · decide

/-- C5 (amended): when the backend rejects an otherwise successfully
constructed price write (`savePrice` returns false, modelling a non-201
status), `prices_added` is not incremented — but NO message is appended to
`errors`: the accumulator is returned completely unchanged; symmetrically
for sentiment writes. Only construction/validation failures append
messages. -/
theorem C5_rejected_write_silent (be : Backend) (pid : Int) (it : RawItem)
    (r : GroundingResult) :
    (∀ p u vp, it.price = some p → it.source_url = some u →
      mkVerifiedPrice pid p (it.currency.getD "USD") (some u) = some vp →
      be.savePrice pid vp = false →
      processPriceStep be pid it r = r)
    ∧ (∀ s u vs, it.sentiment_score = some s →
      it.sentiment_source_url = some u →
      validatorSentiment pid s it u = some vs →
      be.saveSentiment vs = false →
      processSentimentStep be pid it r = r) := by
  constructor
  · intro p u vp hp hu hmk hsave
    unfold processPriceStep
    simp only [hp, hu, hmk, hsave]
    simp
  · intro s u vs hs hu hmk hsave
    unfold processSentimentStep
    simp only [hs, hu, hmk, hsave]
    simp

/-- Witness for C5: the rejecting backend leaves the accumulator unchanged
on the fully-valid item, for both the price and the sentiment write. -/
theorem C5_rejected_write_silent_witness :
    processPriceStep rejectWrites 1 goodItem GroundingResult.empty =
      GroundingResult.empty
    ∧ processSentimentStep rejectWrites 1 goodItem GroundingResult.empty =
      GroundingResult.empty :=
  ⟨(C5_rejected_write_silent rejectWrites 1 goodItem GroundingResult.empty).1
      10 "https://example.com/p/g" ⟨1, 10, "USD", "https://example.com/p/g"⟩
      rfl rfl (by decide) rfl,
   (C5_rejected_write_silent rejectWrites 1 goodItem GroundingResult.empty).2
      1 "https://example.com/r/g" ⟨1, 1, some "ok", none, "https://example.com/r/g"⟩
      rfl rfl (by decide) rfl⟩

/-- A page whose first review selector matches one block longer than 20
characters. -/
def reviewPageLong : PageModel :=
  { selectorText := fun _ => none,
    selectorAll := fun sel =>
      if sel = "[data-test=\"review-text\"]"
      then ["this is a sufficiently long review block"] else [],
    fallbackMatch := none }

/-- C6 counterexample: on the text "great great bad" the code scores 0
(term presence: one positive lexicon term present, one negative), while
the claim's occurrence-counting formula gives (2 - 1) / (2 + 1) = 1/3. -/
theorem C6_counterexample :
    estimate_sentiment "great great bad" = 0
    ∧ estimate_sentiment_occ "great great bad" = 1/3
    ∧ estimate_sentiment "great great bad" ≠
        estimate_sentiment_occ "great great bad" := by
  have hp : positiveCount (pyLower "great great bad") = 1 := by decide
  have hn : negativeCount (pyLower "great great bad") = 1 := by decide
  have hpo : (positive_words.map
      (fun w => countOccurrences w (pyLower "great great bad"))).sum = 2 := by
    decide
  have hno : (negative_words.map
      (fun w => countOccurrences w (pyLower "great great bad"))).sum = 1 := by
    decide
  have h1 : estimate_sentiment "great great bad" = 0 := by
    unfold estimate_sentiment
    rw [hp, hn]
    norm_num
  have h2 : estimate_sentiment_occ "great great bad" = 1/3 := by
    unfold estimate_sentiment_occ
    rw [hpo, hno]
    norm_num
  refine ⟨h1, h2, ?_⟩
  rw [h1, h2]
  norm_num

/-- C6 (amended): the per-review score counts lexicon-term PRESENCE
(substring membership, each term contributing at most one), not
occurrences: with p present positive terms and n present negative terms,
the score is (p - n)/(p + n) when p + n ≠ 0 and 0 otherwise; the
aggregate is the arithmetic mean of per-review scores, 0 for the empty
list. The claim's example is unaffected: ["This is great and excellent",
"This is terrible and bad"] scores [1, -1] per review and aggregates
to 0. -/
theorem C6_sentiment_presence_scoring :
    estimate_sentiment "This is great and excellent" = 1
    ∧ estimate_sentiment "This is terrible and bad" = -1
    ∧ calculate_sentiment_from_reviews
        ["This is great and excellent", "This is terrible and bad"] = 0
    ∧ calculate_sentiment_from_reviews [] = 0
    ∧ (∀ reviews : List String, reviews ≠ [] →
        calculate_sentiment_from_reviews reviews =
          (reviews.map estimate_sentiment).sum / (reviews.length : ℚ))
    ∧ (∀ text, positiveCount (pyLower text) + negativeCount (pyLower text) = 0 →
        estimate_sentiment text = 0) := by
  have h1 : estimate_sentiment "This is great and excellent" = 1 := by
    have hp : positiveCount (pyLower "This is great and excellent") = 2 := by
      decide
    have hn : negativeCount (pyLower "This is great and excellent") = 0 := by
      decide
    unfold estimate_sentiment
    rw [hp, hn]
    norm_num
  have h2 : estimate_sentiment "This is terrible and bad" = -1 := by
    have hp : positiveCount (pyLower "This is terrible and bad") = 0 := by
      decide
    have hn : negativeCount (pyLower "This is terrible and bad") = 2 := by
      decide
    unfold estimate_sentiment
    rw [hp, hn]
    norm_num
  refine ⟨h1, h2, ?_, by rfl, ?_, ?_⟩
  · unfold calculate_sentiment_from_reviews
    rw [List.map_cons, List.map_cons, List.map_nil, h1, h2]
    norm_num
  · intro reviews hne
    unfold calculate_sentiment_from_reviews
    cases reviews with
    | nil => exact absurd rfl hne
    | cons a l => simp
  · intro text h
    unfold estimate_sentiment
    rw [if_pos h]

/-- Witness for C6: the mean formula at a concrete nonempty list, and the
zero default at a text containing no lexicon term. -/
theorem C6_sentiment_presence_scoring_witness :
    calculate_sentiment_from_reviews ["a"] =
      ((["a"].map estimate_sentiment).sum) / ((List.length ["a"] : Nat) : ℚ)
    ∧ estimate_sentiment "xyz" = 0 :=
  ⟨C6_sentiment_presence_scoring.2.2.2.2.1 ["a"] (by simp),
   C6_sentiment_presence_scoring.2.2.2.2.2 "xyz" (by decide)⟩

/-- C7 counterexample: on a page where every selector and the full-page
fallback fail, the raised exception is `ValueError` — the repository
defines no `ExtractionError` class, so the claim's exception type is
wrong (its fallback behaviour is right, see the amended theorem). -/
theorem C7_counterexample :
    extract_price_from_page deadPage =
      Except.error ⟨"ValueError", "Could not extract price from page"⟩
    ∧ priceExtractionError.className ≠ "ExtractionError" :=
  ⟨by rfl, by decide⟩

/-- C7 (amended): when no price selector strategy and no full-page
fallback yields a positive price, `_extract_price_from_page` raises
`ValueError("Could not extract price from page")` — not a default or
zero; the caller catches it (`scrape_live_site` returns `None`) and
`scrape_demo_data` falls back to demo-mode generation, so the request
still returns data. -/
theorem C7_price_failure_fallback (page : PageModel) (selected : List RawItem)
    (url : String)
    (hurl : pyStartsWith url "http://" = true ∨ pyStartsWith url "https://" = true)
    (hsel : ∀ sel ∈ price_selectors, selectorPrice page sel = none)
    (hfb : fallbackPrice page = none) :
    extract_price_from_page page = Except.error priceExtractionError
    ∧ scrape_live_site page url = none
    ∧ scrape_demo_data page selected url = selected.map demoStamp := by
  have herr : extract_price_from_page page = Except.error priceExtractionError := by
    unfold extract_price_from_page
    rw [firstSelectorPrice_none page price_selectors hsel, hfb]
  have hlive : scrape_live_site page url = none := by
    unfold scrape_live_site
    rw [herr]
  refine ⟨herr, hlive, ?_⟩
  unfold scrape_demo_data
  rcases hurl with h | h <;> rw [h] <;> simp [hlive]

/-- Witness for C7: the dead page raises, live scraping of it returns
nothing, and the demo fallback returns the stamped demo selection. -/
theorem C7_price_failure_fallback_witness :
    extract_price_from_page deadPage = Except.error priceExtractionError
    ∧ scrape_live_site deadPage "https://example.com/x" = none
    ∧ scrape_demo_data deadPage [mkItem "a" true] "https://example.com/x" =
        [mkItem "a" true].map demoStamp :=
  C7_price_failure_fallback deadPage [mkItem "a" true] "https://example.com/x"
    (Or.inr (by decide)) (by decide) rfl

/-- C8 counterexample: a review block of exactly 20 characters — which the
claim says must be retained ("at least 20 characters") — is discarded:
the code keeps a block only when its stripped length is strictly greater
than 20. -/
theorem C8_counterexample :
    ("aaaaaaaaaaaaaaaaaaaa" : String).length = 20
    ∧ extract_reviews reviewPage20 3 = [] :=
  ⟨by decide, by decide⟩

/-- C8 (amended): review collection walks each strategy's blocks in
document order and retains a block iff its stripped text is STRICTLY
longer than 20 characters (exactly-20-character blocks are discarded),
truncating each retained block to 500 characters and stopping at `limit`;
the first strategy yielding at least one review wins — lower-priority
strategies are not consulted and results are never merged. -/
theorem C8_review_collection (page : PageModel) (limit : Nat) :
    (0 < limit → ∀ texts : List String,
      collectReviews limit texts [] = (retainedReviews texts).take limit)
    ∧ (∀ sel rest, collectReviews limit (page.selectorAll sel) [] ≠ [] →
        reviewsFromSelectors page limit (sel :: rest) =
          collectReviews limit (page.selectorAll sel) [])
    ∧ (extract_reviews page limit).length ≤ limit
    ∧ (∀ r ∈ extract_reviews page limit, r.length ≤ 500) := by
  refine ⟨?_, ?_, ?_, ?_⟩
  · intro hlim texts
    have h := collectReviews_char limit texts [] (by simpa using hlim)
    simpa using h
  · intro sel rest h
    unfold reviewsFromSelectors
    rw [if_neg]
    simpa [List.isEmpty_iff] using h
  · unfold extract_reviews
    rw [List.length_take]
    exact Nat.min_le_left _ _
  · intro r hr
    unfold extract_reviews at hr
    have hr2 := List.take_subset limit _ hr
    obtain ⟨t, rfl⟩ := reviewsFromSelectors_mem page limit review_selectors r hr2
    exact pyTake_length_le t 500

/-- Witness for C8: the characterization at a concrete strategy's blocks,
and first-strategy-wins at a concrete page. -/
theorem C8_review_collection_witness :
    collectReviews 3 ["this is a sufficiently long review block"] [] =
      (retainedReviews ["this is a sufficiently long review block"]).take 3
    ∧ reviewsFromSelectors reviewPageLong 3 review_selectors =
        collectReviews 3
          (reviewPageLong.selectorAll "[data-test=\"review-text\"]") [] :=
  ⟨(C8_review_collection reviewPageLong 3).1 (by decide)
      ["this is a sufficiently long review block"],
   (C8_review_collection reviewPageLong 3).2.1 "[data-test=\"review-text\"]"
      [".review-text", "[itemprop=\"reviewBody\"]", ".review-content",
       ".customer-review", "[class*=\"review\"]"] (by decide)⟩
